import Mathlib

/-
Verification of the UPnP client core (upnp_client.py) and the NOTIFY
dispatcher view (dlna_dmr.py) of the home-assistant-dlna-dmr repository.

The Python code is shallowly embedded: Python objects become Lean
structures, in-place mutation becomes explicit state passing, and a
Python exception becomes the error branch of an `Except` value.  The
XML layer is represented by its parsed shape (element trees the code
inspects become structured Lean values), since the code under scrutiny
consumes parse results, not raw bytes.
-/

namespace UpnpClient

instance {ε α : Type} [DecidableEq ε] [DecidableEq α] :
    DecidableEq (Except ε α) := fun x y =>
  match x, y with
  | .ok a, .ok b =>
      if h : a = b then isTrue (by rw [h])
      else isFalse (fun hc => h (Except.ok.inj hc))
  | .error a, .error b =>
      if h : a = b then isTrue (by rw [h])
      else isFalse (fun hc => h (Except.error.inj hc))
  | .ok _, .error _ => isFalse (fun hc => Except.noConfusion hc)
  | .error _, .ok _ => isFalse (fun hc => Except.noConfusion hc)

/-- ASCII lower-casing of a character, as applied to HTTP header
names. -/
def asciiLower (c : Char) : Char :=
  if 'A' ≤ c && c ≤ 'Z' then Char.ofNat (c.toNat + 32) else c

/-- ASCII lower-casing of a string. -/
def strLower (s : String) : String :=
  String.mk (s.data.map asciiLower)

/-- ASCII whitespace, as stripped by Python's `int(s)`. -/
def isPySpace (c : Char) : Bool :=
  c == ' ' || c == '\t' || c == '\n' || c == '\r'

/-- Decimal digit parsing: the value of a nonempty run of digits. -/
def digitsToNat? : List Char → Option Nat
  | [] => none
  | cs => go cs 0
where
  go : List Char → Nat → Option Nat
    | [], acc => some acc
    | c :: cs, acc =>
        if '0' ≤ c && c ≤ '9' then go cs (acc * 10 + (c.toNat - '0'.toNat))
        else none

/-- Python values of the three native types the factory maps UPnP
primitive types to (`STATE_VARIABLE_TYPE_MAPPING`: i2/i4/ui2/ui4 → int,
string → str, boolean → bool). -/
inductive PyValue where
  | pyInt (n : Int)
  | pyStr (s : String)
  | pyBool (b : Bool)
deriving DecidableEq

/-- Kinds of Python exceptions the embedded code can raise.
`multipleInvalid` is voluptuous' `vol.error.MultipleInvalid` (schema
validation failure); `valueError` arises from `int(s)` on a
non-numeric string; `keyError` from `kwargs[name]` on a missing key;
`attributeError` from attribute access on `None`; `runtimeError` from
an explicit `raise RuntimeError`; `parseError` from
`ET.fromstring` on malformed XML. -/
inductive PyErr where
  | multipleInvalid
  | valueError
  | keyError
  | attributeError
  | runtimeError
  | parseError
deriving DecidableEq

/-- The three native data types of `STATE_VARIABLE_TYPE_MAPPING`. -/
inductive UpnpDataType where
  | intType
  | strType
  | boolType
deriving DecidableEq

/-- Python `isinstance` check performed by a voluptuous type validator.
Python's `bool` is a subclass of `int`, so an `int`-typed validator
accepts booleans as well. -/
def isinstanceOf : UpnpDataType → PyValue → Bool
  | .intType, .pyInt _ => true
  | .intType, .pyBool _ => true
  | .strType, .pyStr _ => true
  | .boolType, .pyBool _ => true
  | _, _ => false

/-- Python truthiness of a value, as used by `'1' if value else '0'`. -/
def pyTruthy : PyValue → Bool
  | .pyBool b => b
  | .pyInt n => n != 0
  | .pyStr s => s != ""

/-- Python `str()` of a value. -/
def pyStrOf : PyValue → String
  | .pyInt n => toString n
  | .pyStr s => s
  | .pyBool b => if b then "True" else "False"

/-- Python `int(s)`: optional surrounding whitespace, optional sign,
then decimal digits; anything else raises `ValueError`. -/
def pyIntParse (s : String) : Option Int :=
  match (s.data.dropWhile isPySpace).reverse.dropWhile isPySpace |>.reverse with
  | '-' :: cs => (digitsToNat? cs).map (fun n => -(n : Int))
  | '+' :: cs => (digitsToNat? cs).map (fun n => (n : Int))
  | cs => (digitsToNat? cs).map (fun n => (n : Int))

/-- Static description of a state variable, as extracted by
`UpnpFactory._state_variable_parse_xml` and used by
`_state_variable_create_schema`: the native data type, the optional
enumerated allowed-value list, and the optional numeric range coerced
to native integers. -/
structure StateVarInfo where
  name : String
  dataType : UpnpDataType
  allowedValues : Option (List String)
  valueRange : Option (Int × Int)
deriving DecidableEq

/-- Membership test performed by `vol.In(allowed_values)`: the allowed
values are the raw strings from the SCPD document, so only a string
value can be a member. -/
def inCheck (allowed : List String) : PyValue → Bool
  | .pyStr s => allowed.contains s
  | _ => false

/-- Numeric view of a value for `vol.Range` (Python compares booleans
as the integers 0 and 1; a string compared against an int range raises
inside voluptuous and is reported as invalid). -/
def asIntVal : PyValue → Option Int
  | .pyInt n => some n
  | .pyBool b => some (if b then 1 else 0)
  | .pyStr _ => none

/-- Inclusive range check performed by `vol.Range(min=lo, max=hi)`. -/
def rangeCheck (lo hi : Int) (v : PyValue) : Bool :=
  match asIntVal v with
  | some n => decide (lo ≤ n) && decide (n ≤ hi)
  | none => false

/-- The schema `vol.Schema(\x7bRequired('value'): vol.All(data_type,
[vol.In], [vol.Range])\x7d)` built by
`UpnpFactory._state_variable_create_schema`, applied to a value as in
`UpnpStateVariable.validate_value`.  `vol.All` applies the validators
in order: native type check, then enumeration membership if declared,
then inclusive range if declared. -/
def validate_value (sv : StateVarInfo) (v : PyValue) : Bool :=
  isinstanceOf sv.dataType v
    && (match sv.allowedValues with
        | some allowed => inCheck allowed v
        | none => true)
    && (match sv.valueRange with
        | some (lo, hi) => rangeCheck lo hi v
        | none => true)

/-- Mutable state of an `UpnpStateVariable`: `_value` and
`_updated_at` (both `None` until first successful assignment). -/
structure SVState where
  value : Option PyValue
  updatedAt : Option Nat
deriving DecidableEq

/-- The `UpnpStateVariable.value` setter: validate, then store the
value and refresh the timestamp; a validation failure raises
`vol.error.MultipleInvalid` before anything is stored. -/
def value_set (sv : StateVarInfo) (v : PyValue) (now : Nat) :
    Except PyErr SVState :=
  if validate_value sv v then .ok { value := some v, updatedAt := some now }
  else .error .multipleInvalid

/-- Result of an assignment attempt under Python exception semantics:
on success the new object state, on an exception the old state is
retained alongside the raised error. -/
def value_set_result (sv : StateVarInfo) (st : SVState) (v : PyValue)
    (now : Nat) : SVState × Option PyErr :=
  match value_set sv v now with
  | .ok st' => (st', none)
  | .error e => (st, some e)

/-- The `UpnpStateVariable.coerce_python` method: booleans are decoded
by comparing the wire string against `'1'`; integers by `int(s)`
(raising `ValueError` on failure); strings are taken as-is. -/
def coerce_python (sv : StateVarInfo) (upnpValue : String) :
    Except PyErr PyValue :=
  match sv.dataType with
  | .boolType => .ok (.pyBool (upnpValue == "1"))
  | .intType =>
      match pyIntParse upnpValue with
      | some n => .ok (.pyInt n)
      | none => .error .valueError
  | .strType => .ok (.pyStr upnpValue)

/-- The `UpnpStateVariable.coerce_upnp` method: booleans encode as
`'1'`/`'0'` by truthiness, every other type via `str(value)`. -/
def coerce_upnp (sv : StateVarInfo) (v : PyValue) : String :=
  match sv.dataType with
  | .boolType => if pyTruthy v then "1" else "0"
  | _ => pyStrOf v

/-- The `UpnpStateVariable.upnp_value` setter: coerce the wire string
to a native value, then go through the validating `value` setter. -/
def upnp_value_set (sv : StateVarInfo) (upnpValue : String) (now : Nat) :
    Except PyErr SVState := do
  let v ← coerce_python sv upnpValue
  value_set sv v now

/-- A state variable object: its static description together with its
mutable state. -/
structure StateVariable where
  info : StateVarInfo
  state : SVState
deriving DecidableEq

/-- HTTP headers.  aiohttp presents headers as a case-insensitive
multidict, so lookups compare keys case-insensitively and return the
first match. -/
abbrev Headers := List (String × String)

/-- Case-insensitive header lookup, as performed by
`headers.get(key)` / `key in headers` on aiohttp header multidicts. -/
def headersGet (hs : Headers) (key : String) : Option String :=
  (hs.find? (fun p => strLower p.fst == strLower key)).map Prod.snd

/-- Mutable state of an `UpnpService` relevant to eventing: the active
subscription identifier and the state-variable dictionary. -/
structure Service where
  subscription_sid : Option String
  stateVariables : List (String × StateVariable)
deriving DecidableEq

/-- The `UpnpService.state_variable(name)` lookup
(`self.state_variables.get(name, None)`). -/
def state_variable (svc : Service) (name : String) : Option StateVariable :=
  (svc.stateVariables.find? (fun p => p.fst == name)).map Prod.snd

/-- Replace the first entry stored under a key.  A Python dict holds
one binding per key, and mutating the object bound to a name rebinds
exactly that entry. -/
def updateFirst (name : String) (var : StateVariable) :
    List (String × StateVariable) → List (String × StateVariable)
  | [] => []
  | p :: rest =>
      if p.fst == name then (name, var) :: rest
      else p :: updateFirst name var rest

/-- Rebind the state-variable object held under `name` (in-place
mutation of the object found by `state_variable`). -/
def svUpdate (svc : Service) (name : String) (var : StateVariable) : Service :=
  { svc with stateVariables := updateFirst name var svc.stateVariables }

/-- Lookup of only the static description of the variable stored under
a name; the description is never mutated by NOTIFY processing. -/
def svInfoLookup (svc : Service) (name : String) : Option StateVarInfo :=
  (state_variable svc name).map StateVariable.info

/-- Parsed shape of a NOTIFY body as `on_notify` consumes it:
`malformed` when `ET.fromstring` raises on the body or on the
`LastChange` text, `noLastChange` when the body parses but holds no
`LastChange` element, and otherwise the embedded event: one list of
`(variable name, val attribute)` pairs per `InstanceID` element, the
names already stripped of their namespace by the tag split. -/
inductive NotifyBody where
  | malformed
  | noLastChange
  | lastChange (instances : List (List (String × String)))
deriving DecidableEq

/-- One iteration of the inner loop of `UpnpService.on_notify` for the
pair `(name, value)`: look the variable up (a `None` result makes the
following attribute assignment raise `AttributeError`), then assign
its wire value; `vol.error.MultipleInvalid` is caught and logged, so
the value is skipped and the service is unchanged; any other
exception (such as `ValueError` from the integer coercion)
propagates. -/
def notifyVar (now : Nat) (svc : Service) (nv : String × String) :
    Except PyErr Service :=
  match state_variable svc nv.fst with
  | none => .error .attributeError
  | some var =>
      match upnp_value_set var.info nv.snd now with
      | .ok st' => .ok (svUpdate svc nv.fst { var with state := st' })
      | .error .multipleInvalid => .ok svc
      | .error e => .error e

/-- The loop of `UpnpService.on_notify` over all reported variables
(the two nested loops flattened): processes each pair in order and
collects `changed_state_variables`; note the Python code appends the
variable after the `try`/`except`, so a variable whose value was
rejected by validation is still collected, while an uncaught
exception aborts the loop before the callback. -/
def notifyVars (now : Nat) :
    Service → List (String × String) → Except PyErr (Service × List String)
  | svc, [] => .ok (svc, [])
  | svc, nv :: rest => do
      let svc' ← notifyVar now svc nv
      let (svc'', names) ← notifyVars now svc' rest
      .ok (svc'', nv.fst :: names)

/-- The part of `UpnpService.on_notify` after the SID check: parse the
body, return silently if no `LastChange` element is present, else
process all reported variables and invoke
`notify_changed_state_variables` once with the collected batch.  The
second component of the result is `some batch` exactly when the change
callback is invoked (once, with that batch of variable names), and
`none` when it is not invoked at all. -/
def on_notify_body (svc : Service) (body : NotifyBody) (now : Nat) :
    Except PyErr (Service × Option (List String)) :=
  match body with
  | .malformed => .error .parseError
  | .noLastChange => .ok (svc, none)
  | .lastChange instances => do
      let (svc', changed) ← notifyVars now svc instances.flatten
      .ok (svc', some changed)

/-- The `UpnpService.on_notify` method: compare the `SID` header (or
`None` when absent) against the stored subscription id and return
silently on a mismatch; otherwise process the body. -/
def on_notify (svc : Service) (headers : Headers) (body : NotifyBody)
    (now : Nat) : Except PyErr (Service × Option (List String)) :=
  if headersGet headers "SID" ≠ svc.subscription_sid then .ok (svc, none)
  else on_notify_body svc body now

/-- Whether an embedded computation returned normally rather than
raising a Python exception. -/
def returnsNormally {α : Type} : Except PyErr α → Bool
  | .ok _ => true
  | .error _ => false

/-- The `UpnpService.async_subscribe` method, with the network
exchange represented by the response it produced: raise if already
subscribed; return `None` without storing anything when the response
status is not 200 or carries no `sid` header; otherwise store and
return the received subscription id. -/
def async_subscribe (svc : Service) (respStatus : Nat)
    (respHeaders : Headers) : Except PyErr (Service × Option String) :=
  if svc.subscription_sid.isSome then .error .runtimeError
  else if respStatus ≠ 200 then .ok (svc, none)
  else
    match headersGet respHeaders "sid" with
    | none => .ok (svc, none)
    | some sid => .ok ({ svc with subscription_sid := some sid }, some sid)

/-- Association-list lookup for the plain Python dicts used by the
dispatcher (`str` keys, exact match). -/
def alistGet {α : Type} (m : List (String × α)) (key : String) : Option α :=
  (m.find? (fun p => p.fst == key)).map Prod.snd

/-- Association-list assignment `m[key] = v`: overwrite the binding
when the key is present, append a new binding otherwise. -/
def alistInsert {α : Type} : List (String × α) → String → α →
    List (String × α)
  | [], key, v => [(key, v)]
  | p :: rest, key, v =>
      if p.fst == key then (key, v) :: rest
      else p :: alistInsert rest key v

/-- Association-list deletion `del m[key]`. -/
def alistErase {α : Type} (m : List (String × α)) (key : String) :
    List (String × α) :=
  m.filter (fun p => p.fst != key)

/-- Mutable state of the `UpnpNotifyView` dispatcher:
`_registered_services` and `_backlog`. -/
structure NotifyView where
  registered : List (String × Service)
  backlog : List (String × (Headers × NotifyBody))
deriving DecidableEq

/-- The `UpnpNotifyView.async_notify` request handler: a request
without a `SID` header is answered 422; a `SID` not registered yet has
its payload stored in the backlog and is answered 202; a registered
`SID` is forwarded to the owning service's `on_notify` (whose
exceptions propagate) and answered 200. -/
def async_notify (view : NotifyView) (headers : Headers) (body : NotifyBody)
    (now : Nat) : Except PyErr (NotifyView × Nat) :=
  match headersGet headers "SID" with
  | none => .ok (view, 422)
  | some sid =>
      match alistGet view.registered sid with
      | none =>
          .ok ({ view with
                 backlog := alistInsert view.backlog sid (headers, body) }, 202)
      | some svc => do
          let (svc', _) ← on_notify svc headers body now
          .ok ({ view with registered := alistInsert view.registered sid svc' },
               200)

/-- The `UpnpNotifyView.register_service` method: raise `RuntimeError`
if the SID is already registered; otherwise store the service and, if
a backlog entry is held under the SID, replay it through the service's
`on_notify` and delete the entry. -/
def register_service (view : NotifyView) (sid : String) (svc : Service)
    (now : Nat) : Except PyErr NotifyView :=
  if (alistGet view.registered sid).isSome then .error .runtimeError
  else
    let registered' := alistInsert view.registered sid svc
    match alistGet view.backlog sid with
    | none => .ok { view with registered := registered' }
    | some (hdrs, body) => do
        let (svc', _) ← on_notify svc hdrs body now
        .ok { registered := alistInsert registered' sid svc',
              backlog := alistErase view.backlog sid }

/-- The `UpnpNotifyView.unregister_service` method: remove the entry
if present, silently do nothing otherwise. -/
def unregister_service (view : NotifyView) (sid : String) : NotifyView :=
  { view with registered := alistErase view.registered sid }

/-- An `UpnpAction.Argument`: name, direction (`'in'` or `'out'`), and
the related state variable it delegates validation and coercion to. -/
structure Argument where
  name : String
  direction : String
  related : StateVarInfo
deriving DecidableEq

/-- Per-call mutable state of an argument (`_value`). -/
structure ArgState where
  value : Option PyValue
deriving DecidableEq

/-- The `Argument.validate_value` method: delegate to the related
state variable's schema. -/
def arg_validate_value (a : Argument) (v : PyValue) : Bool :=
  validate_value a.related v

/-- The `Argument.value` setter: validate against the related state
variable, then store. -/
def arg_value_set (a : Argument) (v : PyValue) : Except PyErr ArgState :=
  if arg_validate_value a v then .ok { value := some v }
  else .error .multipleInvalid

/-- The `Argument.upnp_value` setter: coerce the wire string to a
native value and store it directly in `_value`, with no validation
step. -/
def arg_upnp_value_set (a : Argument) (upnpValue : String) :
    Except PyErr ArgState := do
  let v ← coerce_python a.related upnpValue
  .ok { value := some v }

/-- An `UpnpAction`: name and the declared arguments in order. -/
structure UpnpAction where
  name : String
  args : List Argument
deriving DecidableEq

/-- The `UpnpAction.in_arguments` method. -/
def in_arguments (act : UpnpAction) : List Argument :=
  act.args.filter (fun a => a.direction == "in")

/-- The `UpnpAction.argument(name, direction)` lookup: first declared
argument with the given name whose direction also matches when a
direction is requested; `None` when nothing matches. -/
def argumentFind (act : UpnpAction) (name : String)
    (direction : Option String) : Option Argument :=
  act.args.find? (fun a =>
    a.name == name &&
      (match direction with
       | some d => a.direction == d
       | none => true))

/-- Supplied keyword arguments of a call. -/
abbrev Kwargs := List (String × PyValue)

/-- Python `kwargs[name]` lookup. -/
def kwargsGet (kwargs : Kwargs) (name : String) : Option PyValue :=
  (kwargs.find? (fun p => p.fst == name)).map Prod.snd

/-- The loop of `UpnpAction.validate_arguments` over a list of
arguments: `kwargs[arg.name]` raises `KeyError` when missing, then the
value is validated against the related state variable. -/
def validateArgsList : List Argument → Kwargs → Except PyErr Unit
  | [], _ => .ok ()
  | a :: rest, kwargs =>
      match kwargsGet kwargs a.name with
      | none => .error .keyError
      | some v =>
          if arg_validate_value a v then validateArgsList rest kwargs
          else .error .multipleInvalid

/-- The `UpnpAction.validate_arguments` method applied to the declared
in-arguments. -/
def validate_arguments (act : UpnpAction) (kwargs : Kwargs) :
    Except PyErr Unit :=
  validateArgsList (in_arguments act) kwargs

/-- The XML fragment `_format_request_args` emits for one in-argument:
the wire-coerced value spliced verbatim (no XML escaping) between an
opening and a closing tag named after the argument. -/
def argFragment (a : Argument) (v : PyValue) : String :=
  "<" ++ a.name ++ ">" ++ coerce_upnp a.related v ++ "</" ++ a.name ++ ">"

/-- The fragment list built by the comprehension inside
`UpnpAction._format_request_args` (one entry per in-argument, each
`kwargs[arg.name]` raising `KeyError` when absent). -/
def renderArgStrs : List Argument → Kwargs → Except PyErr (List String)
  | [], _ => .ok []
  | a :: rest, kwargs =>
      match kwargsGet kwargs a.name with
      | none => .error .keyError
      | some v => do
          let restStrs ← renderArgStrs rest kwargs
          .ok (argFragment a v :: restStrs)

/-- The `UpnpAction._format_request_args` method: validate all
in-arguments, then join their rendered fragments with newlines. -/
def format_request_args (act : UpnpAction) (kwargs : Kwargs) :
    Except PyErr String := do
  validate_arguments act kwargs
  let strs ← renderArgStrs (in_arguments act) kwargs
  .ok (String.intercalate "\n" strs)

/-- Strip a leading run of characters, or fail. -/
def stripLead : List Char → List Char → Option (List Char)
  | [], rest => some rest
  | _ :: _, [] => none
  | p :: ps, c :: cs => if p = c then stripLead ps cs else none

/-- Strip a trailing run of characters, or fail. -/
def stripTail (tail text : List Char) : Option (List Char) :=
  (stripLead tail.reverse text.reverse).map List.reverse

/-- Whether raw character data may appear verbatim as XML text
content: markup-significant characters must not occur. -/
def xmlSafe (raw : String) : Bool :=
  raw.data.all (fun c => c != '<' && c != '&')

/-- Modelled from the round-trip property: extraction of an element's
text content from a rendered fragment by an XML reader.  The fragment
must consist of the element's opening tag, raw character data, and the
closing tag; the data parses as text content only when it is free of
markup-significant characters (a stray `<` or `&` makes the document
ill-formed). -/
def extractElementText (name fragment : String) : Option String :=
  match stripLead ("<" ++ name ++ ">").data fragment.data with
  | none => none
  | some rest =>
      match stripTail ("</" ++ name ++ ">").data rest with
      | none => none
      | some raw =>
          if xmlSafe (String.mk raw) then some (String.mk raw) else none

/-- A SOAP `Fault` element found in a response body, abstracted to
what the code's truthiness test observes: its number of child
elements (an `ElementTree` element is falsy exactly when it has no
children). -/
structure FaultElem where
  childCount : Nat
deriving DecidableEq

/-- Parsed shape of a SOAP action-response body as `parse_response`
consumes it: the optional `Body/Fault` element and the optional
`\x7bserviceType\x7dNameResponse` element with its child elements as
`(tag, text)` pairs. -/
structure SoapBodyXml where
  fault : Option FaultElem
  response : Option (List (String × String))
deriving DecidableEq

/-- The loop of `UpnpAction._parse_response_args` over the children of
the response element: resolve each tag against the declared
out-arguments (`argument(name, 'out')` returning `None` makes the
attribute assignment raise `AttributeError`), set the argument's wire
value (no validation; an integer coercion failure raises
`ValueError`), and collect `args[name] = arg.value`. -/
def parseResponseChildren (act : UpnpAction) :
    List (String × String) → List (String × PyValue) →
    Except PyErr (List (String × PyValue))
  | [], acc => .ok acc
  | (name, text) :: rest, acc =>
      match argumentFind act name (some "out") with
      | none => .error .attributeError
      | some arg => do
          let st ← arg_upnp_value_set arg text
          match st.value with
          | some v => parseResponseChildren act rest (alistInsert acc name v)
          | none => parseResponseChildren act rest acc

/-- The `UpnpAction._parse_response_args` method: `xml.find` on a
missing response element returns `None` and the following `findall`
raises `AttributeError`; otherwise the children are processed in
order. -/
def parse_response_args (act : UpnpAction) (resp : SoapBodyXml) :
    Except PyErr (List (String × PyValue)) :=
  match resp.response with
  | none => .error .attributeError
  | some children => parseResponseChildren act children []

/-- The `UpnpAction.parse_response` method.  The guard is the Python
expression `if xml.find(fault_query, NS):`, whose condition is the
truthiness of the found element — `False` both when no `Fault` element
exists and when the found `Fault` element has no children; only a
truthy find raises (`RuntimeError`, the error the spec names
`ActionFaultError`). -/
def parse_response (act : UpnpAction) (resp : SoapBodyXml) :
    Except PyErr (List (String × PyValue)) :=
  if (match resp.fault with
      | some f => f.childCount != 0
      | none => false)
  then .error .runtimeError
  else parse_response_args act resp

/-- The `Volume` state variable of RenderingControl: type `ui2` with
allowed range 0..100 (fixture `RenderingControl_1.xml`). -/
def volumeInfo : StateVarInfo :=
  { name := "Volume", dataType := .intType, allowedValues := none,
    valueRange := some (0, 100) }

/-- The `Mute` state variable of RenderingControl: type `boolean`,
no range or enumeration. -/
def muteInfo : StateVarInfo :=
  { name := "Mute", dataType := .boolType, allowedValues := none,
    valueRange := none }

/-- The `TransportState` state variable of AVTransport: type `string`
with an enumerated allowed-value list. -/
def transportStateInfo : StateVarInfo :=
  { name := "TransportState", dataType := .strType,
    allowedValues := some ["STOPPED", "PLAYING", "PAUSED_PLAYBACK"],
    valueRange := none }

/-- The `A_ARG_TYPE_InstanceID` state variable: type `ui4`, no
constraints. -/
def instanceIdInfo : StateVarInfo :=
  { name := "A_ARG_TYPE_InstanceID", dataType := .intType,
    allowedValues := none, valueRange := none }

/-- The `AVTransportURI` state variable: type `string`, no
constraints. -/
def uriInfo : StateVarInfo :=
  { name := "AVTransportURI", dataType := .strType,
    allowedValues := none, valueRange := none }

/-- A subscribed service holding `TransportState` and `Volume`, as in
Scenario C. -/
def svcC : Service :=
  { subscription_sid := some "uuid:1",
    stateVariables :=
      [("TransportState",
        { info := transportStateInfo,
          state := { value := some (.pyStr "STOPPED"), updatedAt := some 1 } }),
       ("Volume",
        { info := volumeInfo,
          state := { value := some (.pyInt 10), updatedAt := some 1 } })] }

/-- The `CurrentVolume` out-argument of `GetVolume`, bound to
`Volume`. -/
def currentVolumeArg : Argument :=
  { name := "CurrentVolume", direction := "out", related := volumeInfo }

/-- The `CurrentURI` in-argument of `SetAVTransportURI`, bound to the
free-form string variable `AVTransportURI`. -/
def currentUriArg : Argument :=
  { name := "CurrentURI", direction := "in", related := uriInfo }

/-- The `GetVolume` action with its `out`-argument `CurrentVolume`
bound to `Volume`. -/
def getVolumeAction : UpnpAction :=
  { name := "GetVolume",
    args :=
      [{ name := "InstanceID", direction := "in", related := instanceIdInfo },
       currentVolumeArg] }

/-- An action taking a free-form string in-argument, as
`SetAVTransportURI` does. -/
def setUriAction : UpnpAction :=
  { name := "SetAVTransportURI", args := [currentUriArg] }

/-- The state of `svcC` after Scenario C's NOTIFY set
`TransportState` to `PLAYING` at time 7. -/
def svcCPrime : Service :=
  { subscription_sid := some "uuid:1",
    stateVariables :=
      [("TransportState",
        { info := transportStateInfo,
          state := { value := some (.pyStr "PLAYING"), updatedAt := some 7 } }),
       ("Volume",
        { info := volumeInfo,
          state := { value := some (.pyInt 10), updatedAt := some 1 } })] }

/-- Headers of Scenario C's NOTIFY. -/
def notifyHeadersC : Headers := [("SID", "uuid:1")]

/-- Body of Scenario C's NOTIFY. -/
def notifyBodyC : NotifyBody := .lastChange [[("TransportState", "PLAYING")]]

/-- A dispatcher holding Scenario D's backlogged NOTIFY for the not
yet registered SID `uuid:1`. -/
def viewD : NotifyView :=
  { registered := [], backlog := [("uuid:1", (notifyHeadersC, notifyBodyC))] }

/-- C2: the claim says a response body containing a SOAP Fault element
always fails with the fault error and out-arguments are never parsed;
but the code's guard is the truthiness of the found `Fault` element,
and an `ElementTree` element with no children is falsy, so a childless
`Fault` element slips through and the out-arguments are parsed (first
conjunct); only a `Fault` element with children raises the
`RuntimeError` the spec names `ActionFaultError` (second conjunct). -/
theorem c2_empty_fault_not_detected :
    parse_response getVolumeAction
        { fault := some { childCount := 0 },
          response := some [("CurrentVolume", "3")] }
      = .ok [("CurrentVolume", .pyInt 3)]
    ∧ parse_response getVolumeAction
        { fault := some { childCount := 2 },
          response := some [("CurrentVolume", "3")] }
      = .error .runtimeError := by
  decide

/-- C3: counterexample — for the boolean state variable `Mute`, the
wire string `"true"` (neither `"0"` nor `"1"`) is not a coercion
failure: no error is raised, and the value `False` is stored with a
fresh timestamp. -/
theorem c3_counterexample :
    upnp_value_set muteInfo "true" 5
      = .ok { value := some (.pyBool false), updatedAt := some 5 } := by
  decide

/-- C3 (amended): for every boolean state variable without a declared
allowed-value list or range, setting the wire value with any string
never fails: the stored native value is `True` exactly when the wire
string is `"1"`, and every other wire string silently stores
`False`. -/
theorem c3_bool_wire_coercion_total (sv : StateVarInfo) (s : String)
    (now : Nat) (hdt : sv.dataType = .boolType)
    (hav : sv.allowedValues = none) (hr : sv.valueRange = none) :
    upnp_value_set sv s now
      = .ok { value := some (.pyBool (s == "1")), updatedAt := some now } := by
  simp [upnp_value_set, coerce_python, hdt, value_set, validate_value, hav, hr,
    isinstanceOf, Bind.bind, Except.bind]

/-- Witness for C3 (amended) at the wire string `"yes"`. -/
theorem c3_witness :
    upnp_value_set muteInfo "yes" 9
      = .ok { value := some (.pyBool ("yes" == "1")), updatedAt := some 9 } :=
  c3_bool_wire_coercion_total muteInfo "yes" 9 rfl rfl rfl

/-- C4: for a state variable with declared numeric range, assigning an
integer strictly outside the range raises the validation error and
leaves the stored value and timestamp unchanged; an assignment passing
validation stores the value and refreshes the timestamp. -/
theorem c4_range_validation (sv : StateVarInfo) (st : SVState)
    (lo hi n : Int) (v : PyValue) (now : Nat)
    (hr : sv.valueRange = some (lo, hi)) :
    ((n < lo ∨ hi < n) →
      value_set_result sv st (.pyInt n) now = (st, some .multipleInvalid))
    ∧ (validate_value sv v = true →
       value_set_result sv st v now
         = ({ value := some v, updatedAt := some now }, none)) := by
  constructor
  · intro hout
    have hrc : rangeCheck lo hi (.pyInt n) = false := by
      simp only [rangeCheck, asIntVal, Bool.and_eq_false_iff,
        decide_eq_false_iff_not]
      omega
    have hval : validate_value sv (.pyInt n) = false := by
      simp [validate_value, hr, hrc]
    simp [value_set_result, value_set, hval]
  · intro hv
    simp [value_set_result, value_set, hv]

/-- Witness for C4 on `Volume` (range 0..100): 150 is rejected with
the prior value and timestamp retained; 42 is stored at the new
timestamp. -/
theorem c4_witness :
    (value_set_result volumeInfo
        { value := some (.pyInt 10), updatedAt := some 1 } (.pyInt 150) 2
      = ({ value := some (.pyInt 10), updatedAt := some 1 },
         some .multipleInvalid))
    ∧ (value_set_result volumeInfo
        { value := some (.pyInt 10), updatedAt := some 1 } (.pyInt 42) 2
      = ({ value := some (.pyInt 42), updatedAt := some 2 }, none)) :=
  ⟨(c4_range_validation volumeInfo _ 0 100 150 (.pyInt 150) 2 rfl).1
      (by decide),
   (c4_range_validation volumeInfo _ 0 100 150 (.pyInt 42) 2 rfl).2
      (by decide)⟩

/-- C7: on a service with no active subscription, a SUBSCRIBE exchange
whose response status is not 200 or whose response carries no `SID`
header does not raise: `async_subscribe` returns no identifier and the
service's subscription id stays unset. -/
theorem c7_subscribe_soft_failure (svc : Service) (status : Nat)
    (hdrs : Headers) (hsub : svc.subscription_sid = none)
    (hfail : status ≠ 200 ∨ headersGet hdrs "sid" = none) :
    async_subscribe svc status hdrs = .ok (svc, none) := by
  rcases hfail with h | h
  · simp [async_subscribe, hsub, h]
  · by_cases hst : status = 200
    · simp [async_subscribe, hsub, hst, h]
    · simp [async_subscribe, hsub, hst]

/-- Witness for C7: a 500 response and a 200 response without a `SID`
header both leave the service unsubscribed without raising. -/
theorem c7_witness :
    (async_subscribe { subscription_sid := none, stateVariables := [] } 500
        [("Server", "x")]
      = .ok ({ subscription_sid := none, stateVariables := [] }, none))
    ∧ (async_subscribe { subscription_sid := none, stateVariables := [] } 200
        [("Server", "x")]
      = .ok ({ subscription_sid := none, stateVariables := [] }, none)) :=
  ⟨c7_subscribe_soft_failure _ 500 _ rfl (Or.inl (by decide)),
   c7_subscribe_soft_failure _ 200 _ rfl (Or.inr (by decide))⟩

/-- C9: when the service's subscription id is unset and the NOTIFY
headers contain no `SID` header at all, `on_notify` treats the absent
header as matching (`None == None`) and proceeds to parse the body and
update state variables, instead of taking the silent-ignore branch. -/
theorem c9_absent_sid_matches_unset (svc : Service) (hdrs : Headers)
    (body : NotifyBody) (now : Nat) (hsub : svc.subscription_sid = none)
    (hhdr : headersGet hdrs "SID" = none) :
    on_notify svc hdrs body now = on_notify_body svc body now := by
  simp [on_notify, hsub, hhdr]

/-- Witness for C9: an unsubscribed service processes a SID-less
NOTIFY exactly as the body-processing path does. -/
theorem c9_witness :
    on_notify { subscription_sid := none, stateVariables := svcC.stateVariables }
        [("Host", "h")] notifyBodyC 7
      = on_notify_body
          { subscription_sid := none, stateVariables := svcC.stateVariables }
          notifyBodyC 7 :=
  c9_absent_sid_matches_unset _ _ _ 7 rfl (by decide)

/-- C10: setting an argument's wire value stores the coerced native
value directly, with no validation against the related state
variable's rules (first conjunct, with no validity hypothesis on the
coerced value); setting the native value validates first and rejects
invalid values (second conjunct); consequently an out-argument parsed
from an action response is stored and returned unvalidated (third
conjunct). -/
theorem c10_wire_setter_unvalidated (a : Argument) (s : String)
    (v v' : PyValue) (act : UpnpAction) (name text : String) :
    (coerce_python a.related s = .ok v →
      arg_upnp_value_set a s = .ok { value := some v })
    ∧ (arg_validate_value a v' = false →
       arg_value_set a v' = .error .multipleInvalid)
    ∧ (argumentFind act name (some "out") = some a →
       coerce_python a.related text = .ok v →
       parseResponseChildren act [(name, text)] [] = .ok [(name, v)]) := by
  refine ⟨fun hc => ?_, fun hv => ?_, fun hfind hc => ?_⟩
  · simp [arg_upnp_value_set, hc, Bind.bind, Except.bind]
  · simp [arg_value_set, hv]
  · simp [parseResponseChildren, hfind, arg_upnp_value_set, hc, alistInsert,
      Bind.bind, Except.bind]

/-- Witness for C10 on `CurrentVolume` (bound to `Volume`, range
0..100) with wire text `"150"`: the wire setter stores 150 although
the native setter rejects it, and response parsing returns the
unvalidated 150. -/
theorem c10_witness :
    (arg_upnp_value_set currentVolumeArg "150" = .ok { value := some (.pyInt 150) })
    ∧ (arg_value_set currentVolumeArg (.pyInt 150) = .error .multipleInvalid)
    ∧ (parseResponseChildren getVolumeAction [("CurrentVolume", "150")] []
        = .ok [("CurrentVolume", .pyInt 150)]) :=
  ⟨(c10_wire_setter_unvalidated currentVolumeArg "150" (.pyInt 150) (.pyInt 150)
      getVolumeAction "CurrentVolume" "150").1 (by decide),
   (c10_wire_setter_unvalidated currentVolumeArg "150" (.pyInt 150) (.pyInt 150)
      getVolumeAction "CurrentVolume" "150").2.1 (by decide),
   (c10_wire_setter_unvalidated currentVolumeArg "150" (.pyInt 150) (.pyInt 150)
      getVolumeAction "CurrentVolume" "150").2.2 (by decide) (by decide)⟩

/-- Looking up a key right after inserting it yields the inserted
value. -/
theorem alistGet_insert_self {α : Type} (m : List (String × α)) (k : String)
    (v : α) : alistGet (alistInsert m k v) k = some v := by
  induction m with
  | nil => simp [alistInsert, alistGet, List.find?]
  | cons p rest ih =>
      by_cases hp : (p.fst == k) = true
      · simp [alistInsert, hp, alistGet, List.find?]
      · simp only [alistInsert, hp, if_false, Bool.false_eq_true, ite_false]
        simpa [alistGet, List.find?, hp] using ih

/-- Unfolding lemma for association-list lookup. -/
theorem alistGet_cons {α : Type} (p : String × α) (l : List (String × α))
    (k : String) :
    alistGet (p :: l) k = if p.fst == k then some p.snd else alistGet l k := by
  by_cases hp : (p.fst == k) = true <;> simp [alistGet, List.find?, hp]

/-- Looking up a key right after erasing it yields nothing. -/
theorem alistGet_erase_self {α : Type} (m : List (String × α)) (k : String) :
    alistGet (alistErase m k) k = none := by
  induction m with
  | nil => rfl
  | cons p rest ih =>
      by_cases hp : (p.fst == k) = true
      · have h1 : (p.fst != k) = false := by simp [bne, hp]
        have h2 : alistErase (p :: rest) k = alistErase rest k := by
          simp [alistErase, List.filter_cons, h1]
        rw [h2]; exact ih
      · have h1 : (p.fst != k) = true := by simp [bne, hp]
        have h2 : alistErase (p :: rest) k = p :: alistErase rest k := by
          simp [alistErase, List.filter_cons, h1]
        rw [h2, alistGet_cons]
        simp [hp, ih]

/-- C6: `register_service` raises on a SID that is already registered
(first conjunct); on success with a backlog entry held under the SID,
the entry is replayed through the service's `on_notify` and the
backlog entry is removed, the registry now binding the SID to the
post-replay service state (second conjunct); the backlog entry itself
is what `async_notify` stored for an unregistered SID (third
conjunct, Scenario D). -/
theorem c6_register_service (view : NotifyView) (sid : String)
    (svc svc' : Service) (hdrs : Headers) (body : NotifyBody) (now : Nat)
    (batch : Option (List String)) :
    ((alistGet view.registered sid).isSome = true →
      register_service view sid svc now = .error .runtimeError)
    ∧ (alistGet view.registered sid = none →
       alistGet view.backlog sid = some (hdrs, body) →
       on_notify svc hdrs body now = .ok (svc', batch) →
       register_service view sid svc now
         = .ok { registered :=
                   alistInsert (alistInsert view.registered sid svc) sid svc',
                 backlog := alistErase view.backlog sid }
       ∧ alistGet (alistInsert (alistInsert view.registered sid svc) sid svc')
           sid = some svc'
       ∧ alistGet (alistErase view.backlog sid) sid = none)
    ∧ (headersGet hdrs "SID" = some sid →
       alistGet view.registered sid = none →
       async_notify view hdrs body now
         = .ok ({ view with
                  backlog := alistInsert view.backlog sid (hdrs, body) },
                202)) := by
  refine ⟨fun h => ?_, fun h1 h2 h3 => ?_, fun h1 h2 => ?_⟩
  · simp [register_service, h]
  · refine ⟨?_, alistGet_insert_self _ _ _, alistGet_erase_self _ _⟩
    simp [register_service, h1, h2, h3, Bind.bind, Except.bind]
  · simp [async_notify, h1, h2]

/-- Witness for C6 at Scenario D's dispatcher: registering `uuid:1`
replays the held NOTIFY (setting `TransportState` to `PLAYING`) and
clears the backlog. -/
theorem c6_witness :
    register_service viewD "uuid:1" svcC 7
      = .ok { registered :=
                alistInsert (alistInsert viewD.registered "uuid:1" svcC)
                  "uuid:1" svcCPrime,
              backlog := alistErase viewD.backlog "uuid:1" } :=
  ((c6_register_service viewD "uuid:1" svcC svcCPrime notifyHeadersC
      notifyBodyC 7 (some ["TransportState"])).2.1 rfl (by decide)
      (by decide)).1

/-- On normal completion of the NOTIFY variable loop, the collected
batch is the full list of reported variable names, in order. -/
theorem notifyVars_names (now : Nat) (l : List (String × String)) :
    ∀ (svc svc' : Service) (names : List String),
    notifyVars now svc l = .ok (svc', names) → names = l.map Prod.fst := by
  induction l with
  | nil =>
      intro svc svc' names h
      simp only [notifyVars] at h
      simp at h
      simpa using h.2
  | cons nv rest ih =>
      intro svc svc' names h
      simp only [notifyVars, Bind.bind, Except.bind] at h
      cases hv : notifyVar now svc nv with
      | error e => rw [hv] at h; simp at h
      | ok svc1 =>
          rw [hv] at h
          dsimp only at h
          cases hrest : notifyVars now svc1 rest with
          | error e => rw [hrest] at h; simp at h
          | ok pr =>
              obtain ⟨svc2, names'⟩ := pr
              rw [hrest] at h
              simp at h
              rw [← h.2, ih svc1 svc2 names' hrest]
              simp

/-- C1: counterexample — `svcC` is subscribed with SID `uuid:1`, its
`Volume` (range 0..100) holds 10, and the matching NOTIFY reports
`Volume` as 150, which validation rejects.  The claim says the change
callback is invoked with exactly the variables whose stored values
changed, so here with an empty batch; the code instead leaves the
service state unchanged yet invokes the callback with the batch
`["Volume"]`, which contains the rejected variable. -/
theorem c1_counterexample :
    on_notify svcC notifyHeadersC (.lastChange [[("Volume", "150")]]) 2
      = .ok (svcC, some ["Volume"]) := by
  decide

/-- C1 (amended): on a NOTIFY whose `SID` matches, when the variable
loop completes normally, the change callback is invoked exactly once,
and its batch is the list of all reported variable names — including
any variable whose value was rejected by validation, which keeps its
prior stored value (third conjunct) but is still put in the batch
(second conjunct). -/
theorem c1_notify_batch (svc svc' : Service) (hdrs : Headers)
    (insts : List (List (String × String))) (now : Nat)
    (names : List String)
    (hsid : headersGet hdrs "SID" = svc.subscription_sid)
    (hrun : notifyVars now svc insts.flatten = .ok (svc', names)) :
    on_notify svc hdrs (.lastChange insts) now = .ok (svc', some names)
    ∧ names = insts.flatten.map Prod.fst
    ∧ (∀ (s : Service) (nv : String × String) (var : StateVariable),
        state_variable s nv.fst = some var →
        upnp_value_set var.info nv.snd now = .error .multipleInvalid →
        notifyVar now s nv = .ok s) := by
  refine ⟨?_, notifyVars_names now insts.flatten svc svc' names hrun, ?_⟩
  · simp [on_notify, hsid, on_notify_body, hrun, Bind.bind, Except.bind]
  · intro s nv var h1 h2
    simp [notifyVar, h1, h2]

/-- Witness for C1 (amended) at Scenario C: the matching NOTIFY
setting `TransportState` to `PLAYING` updates exactly that variable
and fires one callback with the batch of size one. -/
theorem c1_witness :
    on_notify svcC notifyHeadersC notifyBodyC 7
      = .ok (svcCPrime, some ["TransportState"]) :=
  (c1_notify_batch svcC svcCPrime notifyHeadersC
    [[("TransportState", "PLAYING")]] 7 ["TransportState"] (by decide)
    (by decide)).1

/-- Rebinding an entry to an object with the same static description
leaves the description seen by any lookup unchanged. -/
theorem find?_updateFirst_info (l : List (String × StateVariable))
    (name : String) (var old : StateVariable) (name' : String)
    (hfind : (l.find? (fun p => p.fst == name)).map Prod.snd = some old)
    (hinfo : var.info = old.info) :
    ((updateFirst name var l).find? (fun p => p.fst == name')).map
        (fun p => p.snd.info)
      = (l.find? (fun p => p.fst == name')).map (fun p => p.snd.info) := by
  induction l with
  | nil => simp [List.find?] at hfind
  | cons p rest ih =>
      by_cases hp : (p.fst == name) = true
      · have hold : old = p.snd := by
          simp only [List.find?, hp] at hfind
          exact (Option.some.inj hfind).symm
        have hpe : p.fst = name := by simpa using hp
        rw [updateFirst, if_pos hp]
        by_cases hq : (name == name') = true
        · have hq' : (p.fst == name') = true := by rw [hpe]; exact hq
          simp only [List.find?, hq, hq']
          simp [hinfo, hold]
        · have hq0 : (name == name') = false := by simpa using hq
          have hq0' : (p.fst == name') = false := by rw [hpe]; exact hq0
          simp only [List.find?, hq0, hq0']
      · have hp0 : (p.fst == name) = false := by simpa using hp
        have hfind' : (rest.find? (fun p => p.fst == name)).map Prod.snd
            = some old := by
          simpa only [List.find?, hp0] using hfind
        rw [updateFirst, if_neg hp]
        by_cases hq : (p.fst == name') = true
        · simp only [List.find?, hq]
        · have hq0 : (p.fst == name') = false := by simpa using hq
          simp only [List.find?, hq0]
          exact ih hfind'

/-- A step of the NOTIFY variable loop never changes which state
variables exist or their static descriptions. -/
theorem svInfoLookup_notifyVar (now : Nat) (svc svc' : Service)
    (nv : String × String) (h : notifyVar now svc nv = .ok svc')
    (name' : String) : svInfoLookup svc' name' = svInfoLookup svc name' := by
  unfold notifyVar at h
  cases hsv : state_variable svc nv.fst with
  | none => rw [hsv] at h; simp at h
  | some var =>
      rw [hsv] at h
      dsimp only at h
      cases hset : upnp_value_set var.info nv.snd now with
      | ok st' =>
          rw [hset] at h
          dsimp only at h
          obtain rfl : svUpdate svc nv.fst { var with state := st' } = svc' :=
            Except.ok.inj h
          have hfind : (svc.stateVariables.find?
              (fun p => p.fst == nv.fst)).map Prod.snd = some var := hsv
          have := find?_updateFirst_info svc.stateVariables nv.fst
            { var with state := st' } var name' hfind rfl
          simpa [svInfoLookup, state_variable, svUpdate, Option.map_map,
            Function.comp] using this
      | error e =>
          rw [hset] at h
          cases e with
          | multipleInvalid =>
              dsimp only at h
              obtain rfl : svc = svc' := Except.ok.inj h
              rfl
          | valueError => simp at h
          | keyError => simp at h
          | attributeError => simp at h
          | runtimeError => simp at h
          | parseError => simp at h

/-- A step of the NOTIFY variable loop returns normally whenever the
reported name is known and the reported value coerces to the
variable's native type (a validation failure is caught and logged). -/
theorem notifyVar_ok (now : Nat) (svc : Service) (nv : String × String)
    (info : StateVarInfo) (v : PyValue)
    (hlook : svInfoLookup svc nv.fst = some info)
    (hco : coerce_python info nv.snd = .ok v) :
    ∃ svc1, notifyVar now svc nv = .ok svc1 := by
  unfold svInfoLookup at hlook
  cases hsv : state_variable svc nv.fst with
  | none => rw [hsv] at hlook; cases hlook
  | some var =>
      rw [hsv] at hlook
      have hvi : var.info = info := by simpa using hlook
      unfold notifyVar
      rw [hsv]
      dsimp only
      unfold upnp_value_set
      rw [hvi, hco]
      by_cases hval : validate_value info v = true
      · refine ⟨svUpdate svc nv.fst
          { info := info,
            state := { value := some v, updatedAt := some now } }, ?_⟩
        simp [Bind.bind, Except.bind, value_set, hval]
      · refine ⟨svc, ?_⟩
        simp [Bind.bind, Except.bind, value_set, hval]

/-- The NOTIFY variable loop returns normally whenever every reported
name is known to the service and every reported value coerces. -/
theorem notifyVars_ok (now : Nat) (l : List (String × String)) :
    ∀ (svc : Service),
    (∀ nv ∈ l, ∃ info, svInfoLookup svc nv.fst = some info
        ∧ ∃ v, coerce_python info nv.snd = .ok v) →
    ∃ pr, notifyVars now svc l = .ok pr := by
  induction l with
  | nil => exact fun svc _ => ⟨(svc, []), rfl⟩
  | cons nv rest ih =>
      intro svc h
      obtain ⟨info, hlook, v, hco⟩ := h nv (List.mem_cons_self nv rest)
      obtain ⟨svc1, hvar⟩ := notifyVar_ok now svc nv info v hlook hco
      have h' : ∀ nv' ∈ rest, ∃ info, svInfoLookup svc1 nv'.fst = some info
          ∧ ∃ v, coerce_python info nv'.snd = .ok v := by
        intro nv' hmem
        obtain ⟨info', h1, h2⟩ := h nv' (List.mem_cons_of_mem nv hmem)
        refine ⟨info', ?_, h2⟩
        rw [svInfoLookup_notifyVar now svc svc1 nv hvar nv'.fst]
        exact h1
      obtain ⟨⟨svc2, names⟩, hrest⟩ := ih svc1 h'
      exact ⟨(svc2, nv.fst :: names),
        by simp [notifyVars, hvar, hrest, Bind.bind, Except.bind]⟩

/-- C5: counterexample — `svcC` has no state variable named
`Unknown`, so a matching NOTIFY reporting `Unknown` makes `on_notify`
raise `AttributeError` to its transport-level caller (the lookup
returns `None` and the wire-value assignment is attempted on it; only
validation errors are caught). -/
theorem c5_counterexample :
    on_notify svcC notifyHeadersC (.lastChange [[("Unknown", "x")]]) 3
      = .error .attributeError := by
  decide

/-- C5 (amended): `on_notify` returns normally — values failing
validation are skipped and logged — provided the body is well-formed
XML and, when it carries a `LastChange` event, every reported variable
name is known to the service and every reported value coerces to the
variable's native type; an unknown name or a non-coercing value
escapes as an uncaught exception. -/
theorem c5_no_raise_when_known (svc : Service) (hdrs : Headers)
    (body : NotifyBody) (now : Nat) (hmal : body ≠ .malformed)
    (hknown : ∀ insts, body = .lastChange insts →
      ∀ nv ∈ insts.flatten, ∃ info, svInfoLookup svc nv.fst = some info
        ∧ ∃ v, coerce_python info nv.snd = .ok v) :
    returnsNormally (on_notify svc hdrs body now) = true := by
  unfold on_notify
  by_cases hsid : headersGet hdrs "SID" ≠ svc.subscription_sid
  · simp [hsid, returnsNormally]
  · rw [if_neg hsid]
    cases body with
    | malformed => exact absurd rfl hmal
    | noLastChange => rfl
    | lastChange insts =>
        obtain ⟨⟨svc', names⟩, hpr⟩ :=
          notifyVars_ok now insts.flatten svc (hknown insts rfl)
        simp [on_notify_body, hpr, Bind.bind, Except.bind, returnsNormally]

/-- Witness for C5 (amended): a matching NOTIFY reporting the known
variable `Volume` with the out-of-range value 150 returns normally
(the validation failure is only logged). -/
theorem c5_witness :
    returnsNormally
        (on_notify svcC notifyHeadersC (.lastChange [[("Volume", "150")]]) 2)
      = true :=
  c5_no_raise_when_known svcC notifyHeadersC
    (.lastChange [[("Volume", "150")]]) 2 (by decide)
    (by
      rintro insts h nv hnv
      injection h with h
      subst h
      simp only [List.flatten_cons, List.flatten_nil, List.append_nil] at hnv
      rw [List.mem_singleton] at hnv
      subst hnv
      exact ⟨volumeInfo, by decide, ⟨.pyInt 150, by decide⟩⟩)

/-- Stripping a leading run that is literally there succeeds and
leaves the remainder. -/
theorem stripLead_append (p rest : List Char) :
    stripLead p (p ++ rest) = some rest := by
  induction p with
  | nil => rfl
  | cons c cs ih => simp [stripLead, ih]

/-- Stripping a trailing run that is literally there succeeds and
leaves the front. -/
theorem stripTail_append (t pre : List Char) :
    stripTail t (pre ++ t) = some pre := by
  unfold stripTail
  rw [List.reverse_append, stripLead_append]
  simp

/-- Reading back the text content of the fragment emitted for one
in-argument recovers the wire value, when that value contains no
markup-significant characters. -/
theorem extract_argFragment (a : Argument) (v : PyValue)
    (hsafe : xmlSafe (coerce_upnp a.related v) = true) :
    extractElementText a.name (argFragment a v)
      = some (coerce_upnp a.related v) := by
  unfold extractElementText argFragment
  have h1 : ("<" ++ a.name ++ ">" ++ coerce_upnp a.related v ++ "</"
        ++ a.name ++ ">").data
      = ("<" ++ a.name ++ ">").data
        ++ ((coerce_upnp a.related v).data ++ ("</" ++ a.name ++ ">").data) := by
    simp only [String.data_append, List.append_assoc]
  rw [h1, stripLead_append]
  dsimp only
  rw [stripTail_append]
  dsimp only
  have h2 : String.mk (coerce_upnp a.related v).data = coerce_upnp a.related v :=
    rfl
  rw [h2, if_pos hsafe]

/-- Induction core for C8: a successful rendering pairs each argument
with a fragment whose extracted text content is the argument's wire
value, provided all supplied wire values are markup-free. -/
theorem renderExtract_aux (kwargs : Kwargs) :
    ∀ (args : List Argument) (frags : List String),
    renderArgStrs args kwargs = .ok frags →
    (∀ a ∈ args, ∀ v, kwargsGet kwargs a.name = some v →
      xmlSafe (coerce_upnp a.related v) = true) →
    List.Forall₂ (fun (a : Argument) (frag : String) =>
      ∃ v, kwargsGet kwargs a.name = some v
        ∧ extractElementText a.name frag = some (coerce_upnp a.related v))
      args frags := by
  intro args
  induction args with
  | nil =>
      intro frags h _
      simp only [renderArgStrs] at h
      obtain rfl : ([] : List String) = frags := Except.ok.inj h
      exact List.Forall₂.nil
  | cons a rest ih =>
      intro frags h hsafe
      simp only [renderArgStrs] at h
      cases hk : kwargsGet kwargs a.name with
      | none => rw [hk] at h; simp at h
      | some v =>
          rw [hk] at h
          dsimp only at h
          cases hr : renderArgStrs rest kwargs with
          | error e => rw [hr] at h; simp [Bind.bind, Except.bind] at h
          | ok restStrs =>
              rw [hr] at h
              simp only [Bind.bind, Except.bind] at h
              obtain rfl : argFragment a v :: restStrs = frags :=
                Except.ok.inj h
              refine List.Forall₂.cons
                ⟨v, hk, extract_argFragment a v
                  (hsafe a (List.mem_cons_self a rest) v hk)⟩ ?_
              exact ih restStrs hr
                (fun a' ha' => hsafe a' (List.mem_cons_of_mem a ha'))

/-- C8: counterexample — the string value `"a<b"` is a valid value for
the free-form in-argument `CurrentURI` (first conjunct), and the
rendered request body embeds it verbatim with no XML escaping (second
conjunct), so extracting the element's text content from the rendered
fragment cannot reproduce the wire value: the raw `<` makes the
element's content unreadable (third conjunct). -/
theorem c8_counterexample :
    validate_arguments setUriAction [("CurrentURI", .pyStr "a<b")] = .ok ()
    ∧ renderArgStrs (in_arguments setUriAction) [("CurrentURI", .pyStr "a<b")]
        = .ok ["<CurrentURI>a<b</CurrentURI>"]
    ∧ extractElementText "CurrentURI" "<CurrentURI>a<b</CurrentURI>" = none := by
  refine ⟨by decide, by decide, by decide⟩

/-- C8 (amended): for every action and every assignment of valid
values whose wire encodings are free of the markup-significant
characters `<` and `&`, rendering the in-arguments and then extracting
each argument element's text content from its rendered fragment
reproduces the original wire-encoded values exactly. -/
theorem c8_request_roundtrip (act : UpnpAction) (kwargs : Kwargs)
    (frags : List String)
    (hrender : renderArgStrs (in_arguments act) kwargs = .ok frags)
    (hsafe : ∀ a ∈ in_arguments act, ∀ v, kwargsGet kwargs a.name = some v →
      xmlSafe (coerce_upnp a.related v) = true) :
    List.Forall₂ (fun (a : Argument) (frag : String) =>
      ∃ v, kwargsGet kwargs a.name = some v
        ∧ extractElementText a.name frag = some (coerce_upnp a.related v))
      (in_arguments act) frags :=
  renderExtract_aux kwargs (in_arguments act) frags hrender hsafe

/-- Witness for C8 (amended): the URI `http://x/y.mp3` survives the
render-and-extract round trip. -/
theorem c8_witness :
    List.Forall₂ (fun (a : Argument) (frag : String) =>
      ∃ v, kwargsGet [("CurrentURI", PyValue.pyStr "http://x/y.mp3")] a.name
          = some v
        ∧ extractElementText a.name frag = some (coerce_upnp a.related v))
      (in_arguments setUriAction) ["<CurrentURI>http://x/y.mp3</CurrentURI>"] :=
  c8_request_roundtrip setUriAction
    [("CurrentURI", PyValue.pyStr "http://x/y.mp3")]
    ["<CurrentURI>http://x/y.mp3</CurrentURI>"] (by decide)
    (by
      intro a ha v hv
      rw [show in_arguments setUriAction = [currentUriArg] from by decide]
        at ha
      rw [List.mem_singleton] at ha
      subst ha
      rw [show kwargsGet [("CurrentURI", PyValue.pyStr "http://x/y.mp3")]
            currentUriArg.name = some (PyValue.pyStr "http://x/y.mp3")
          from by decide] at hv
      injection hv with hv
      subst hv
      decide)

end UpnpClient
